import Mathlib

/-
Verification development for the Dissertation Gantt Tracker dashboard
(src/app.py).  The file gives a shallow embedding of the data logic of the
application: the tabular store (CSV save/load of the schedule table), the
edit/persist cycle (the update_chart callback), the Gantt chart builder
(create_figure), the export aggregator and stacked-bar builder
(create_spirit_glass_chart_from_csv), and the document passthrough
(save_file / get_file_links / serve_file).

Modelling conventions:
- pandas DataFrames become typed Lean lists of rows; machine floats become
  exact rationals (all values exercised by the claims are exactly
  representable, so binary rounding is immaterial);
- the CSV file is modelled at field level (a header row plus rows of field
  strings), i.e. after the delimiter/quoting layer that pandas owns; pandas
  round-trips quoting of commas, quotes and newlines faithfully, so this
  layer is the identity on fields;
- pd.to_datetime is modelled as an ISO YYYY-MM-DD parser; the claims only
  exercise ISO dates and clearly unparseable strings;
- pd.read_csv converts empty fields and the pandas default NA sentinels to
  NaN; this conversion is modelled.  Column-level numeric/boolean dtype
  inference is not modelled; the round-trip theorem therefore additionally
  excludes numeric- and boolean-looking text cells from its hypothesis,
  so that it does not overclaim relative to real pandas.
-/

namespace GanttApp

/-- ASCII digit test used by the numeric parsers. -/
def isDigitChar (c : Char) : Bool := ('0' ≤ c) && (c ≤ '9')

/-- The character for a single decimal digit (0..9). -/
def digitChar (k : Nat) : Char := Char.ofNat (48 + k)

/-- Numeric value of a decimal digit character. -/
def charVal (c : Char) : Nat := c.toNat - 48

/-- Value of a big-endian string of decimal digit characters. -/
def charsToNatVal (cs : List Char) : Nat :=
  cs.foldl (fun a c => 10 * a + charVal c) 0

/-- Fuel-driven conversion of a natural number to its decimal digits
(most significant first).  Fuel at least n+1 is enough. -/
def natToCharsAux : Nat → Nat → List Char
  | 0, _ => []
  | fuel + 1, n => if n = 0 then [] else natToCharsAux fuel (n / 10) ++ [digitChar (n % 10)]

/-- Decimal representation of a natural number, as characters. -/
def natToChars (n : Nat) : List Char :=
  if n = 0 then ['0'] else natToCharsAux (n + 1) n

/-- Decimal representation of a natural number, as a string. -/
def natToString (n : Nat) : String := String.mk (natToChars n)

/-- Parse a nonempty all-digit character list as a natural number. -/
def charsToNat? (cs : List Char) : Option Nat :=
  if (!cs.isEmpty) && cs.all isDigitChar then some (charsToNatVal cs) else none

/-- Left-pad a digit string with zeros to the given width. -/
def padChars (w : Nat) (cs : List Char) : List Char :=
  List.replicate (w - cs.length) '0' ++ cs

/-- Split a character list on a separator character (text splitting used to
model date parsing and decimal-point handling). -/
def splitOnChar (sep : Char) : List Char → List (List Char)
  | [] => [[]]
  | c :: cs =>
    match splitOnChar sep cs with
    | [] => [[]]
    | g :: gs => if c = sep then [] :: g :: gs else (c :: g) :: gs

/-- Calendar dates as stored in the Start/Finish columns. -/
structure Date where
  year : Nat
  month : Nat
  day : Nat
deriving DecidableEq, Repr

/-- Model of pd.to_datetime on a single string: an ISO YYYY-MM-DD parser. -/
def parseDate (s : String) : Option Date :=
  match splitOnChar '-' s.data with
  | [y, m, d] =>
    match charsToNat? y, charsToNat? m, charsToNat? d with
    | some yn, some mn, some dn =>
      if (1 ≤ mn) && (mn ≤ 12) && (1 ≤ dn) && (dn ≤ 31) then some ⟨yn, mn, dn⟩ else none
    | _, _, _ => none
  | _ => none

/-- Characters of the ISO date form written by to_csv for a midnight
datetime64 column. -/
def isoDateChars (d : Date) : List Char :=
  padChars 4 (natToChars d.year) ++ ['-'] ++ padChars 2 (natToChars d.month) ++ ['-'] ++ padChars 2 (natToChars d.day)

/-- ISO date string written by to_csv. -/
def isoDate (d : Date) : String := String.mk (isoDateChars d)

/-! Round-trip lemmas: a date printed by isoDate is re-parsed exactly. -/

/-- A text cell of a loaded DataFrame: either a string or the NaN missing
value that pandas substitutes for empty fields and NA sentinels. -/
inductive Cell where
  | vStr (s : String)
  | vNaN
deriving DecidableEq, Repr

/-- The pandas read_csv default NA sentinel strings. -/
def naValues : List String :=
  ["", "#N/A", "#N/A N/A", "#NA", "-1.#IND", "-1.#QNAN", "-NaN", "-nan",
   "1.#IND", "1.#QNAN", "<NA>", "N/A", "NA", "NULL", "NaN", "None", "n/a", "nan", "null"]

/-- Model of the per-field NA conversion performed by pd.read_csv. -/
def parseCell (f : String) : Cell :=
  if f ∈ naValues then Cell.vNaN else Cell.vStr f

/-- Field string written by to_csv for a text cell (NaN is written as an
empty field). -/
def serializeCell : Cell → String
  | Cell.vStr s => s
  | Cell.vNaN => ""

/-- Field string written by to_csv for a date cell (NaT is written as an
empty field; a midnight datetime64 is written in ISO date form). -/
def serializeDate : Option Date → String
  | none => ""
  | some d => isoDate d

/-- One row of the schedule table, after the two date columns have been
coerced by pd.to_datetime (none models NaT). -/
structure Row where
  task : Cell
  phase : Cell
  start : Option Date
  finish : Option Date
  progress : Cell
  notes : Cell
deriving DecidableEq, Repr

/-- The in-memory schedule table (a pandas DataFrame in the source). -/
abbrev ScheduleTable := List Row

/-- Column header of gantt_data.csv. -/
def stdHeader : List String := ["Task", "Phase", "Start", "Finish", "Progress", "Notes"]

/-- A delimited file, modelled after the delimiter/quoting layer owned by
the pandas CSV reader/writer: a header row plus rows of field strings. -/
structure CsvFile where
  header : List String
  rows : List (List String)
deriving DecidableEq, Repr

/-- Field strings written for one schedule row by to_csv (index=False). -/
def serializeRow (r : Row) : List String :=
  [serializeCell r.task, serializeCell r.phase, serializeDate r.start,
   serializeDate r.finish, serializeCell r.progress, serializeCell r.notes]

/-- Model of updated_df.to_csv("gantt_data.csv", index=False). -/
def saveTable (t : ScheduleTable) : CsvFile :=
  ⟨stdHeader, t.map serializeRow⟩

/-- Failure taxonomy of the startup load: the file is missing, the file
shape is malformed, or a Start/Finish value cannot be coerced to a date. -/
inductive LoadError where
  | missing
  | malformed
  | badDate
deriving DecidableEq, Repr

/-- Coercion of one Start/Finish field by pd.to_datetime: NaN becomes NaT,
a string must parse as a date or the whole load raises. -/
def coerceDateField (s : String) : Except LoadError (Option Date) :=
  match parseCell s with
  | Cell.vNaN => Except.ok none
  | Cell.vStr str =>
    match parseDate str with
    | some d => Except.ok (some d)
    | none => Except.error LoadError.badDate

/-- Parse one CSV data row into a schedule row.  A row of the wrong width
is rejected here; pandas itself raises only on rows with too many fields
and pads short rows with NaN instead, but every file this development
reasons about is one written by saveTable, whose rows always have
exactly the standard width, where the two behaviours agree. -/
def parseRowE (fields : List String) : Except LoadError Row :=
  match fields with
  | [t, p, s, f, pr, no] =>
    match coerceDateField s, coerceDateField f with
    | Except.ok ds, Except.ok df =>
      Except.ok ⟨parseCell t, parseCell p, ds, df, parseCell pr, parseCell no⟩
    | Except.error e, _ => Except.error e
    | _, Except.error e => Except.error e
  | _ => Except.error LoadError.malformed

/-- Parse all CSV data rows. -/
def parseRowsE : List (List String) → Except LoadError ScheduleTable
  | [] => Except.ok []
  | r :: rs =>
    match parseRowE r, parseRowsE rs with
    | Except.ok a, Except.ok as => Except.ok (a :: as)
    | Except.error e, _ => Except.error e
    | _, Except.error e => Except.error e

/-- Model of the startup load (lines 79-81): pd.read_csv("gantt_data.csv")
followed by pd.to_datetime on the Start and Finish columns.  A missing
file raises.  The model requires the standard header and the standard
row width and parses dates in ISO form only; real read_csv also loads
files with extra or reordered columns and padded short rows, and real
to_datetime accepts further date formats, so this model is faithful on
the files saveTable writes (the only ones the theorems below exercise)
but does NOT characterise the exact failure boundary of the program on
arbitrary files. -/
def loadSchedule (file : Option CsvFile) : Except LoadError ScheduleTable :=
  match file with
  | none => Except.error LoadError.missing
  | some f =>
    if f.header = stdHeader then parseRowsE f.rows else Except.error LoadError.malformed

/-- The minimal fallback table substituted on a load failure (lines 85-92). -/
def fallbackTable : ScheduleTable :=
  [⟨Cell.vStr "Sample Task", Cell.vStr "Research", some ⟨2025, 1, 1⟩,
    some ⟨2025, 1, 31⟩, Cell.vStr "50%", Cell.vStr "Sample note"⟩]

/-- The whole module-level load: the loaded table, or the fallback table
when loading raises (the except branch, lines 82-92). -/
def startupLoad (file : Option CsvFile) : ScheduleTable :=
  match loadSchedule file with
  | Except.ok t => t
  | Except.error _ => fallbackTable

/-! Decimal number parsing, modelling Python float() / pandas astype(float)
on the values the claims exercise (signed decimal literals; exponents,
infinities and surrounding whitespace are not exercised). -/

/-- Rational value of a big-endian digit string. -/
def charsRatVal (cs : List Char) : ℚ := ((charsToNatVal cs : Nat) : ℚ)

/-- Parse an unsigned decimal literal, with an optional fractional part. -/
def parseUnsignedRat? (cs : List Char) : Option ℚ :=
  match splitOnChar '.' cs with
  | [ip] =>
    if (!ip.isEmpty) && ip.all isDigitChar then some (charsRatVal ip) else none
  | [ip, fp] =>
    if ((!ip.isEmpty) || (!fp.isEmpty)) && ip.all isDigitChar && fp.all isDigitChar
    then some (charsRatVal ip + charsRatVal fp / (10 : ℚ) ^ fp.length) else none
  | _ => none

/-- Parse a signed decimal literal as an exact rational. -/
def stringToRat? (s : String) : Option ℚ :=
  match s.data with
  | '-' :: rest => (parseUnsignedRat? rest).map (fun q => -q)
  | cs => parseUnsignedRat? cs

/-! Safety predicates for the save/load round trip.  An empty string cell
is written as an empty field and read back as NaN, and the NA sentinel
strings are read back as NaN likewise; numeric- and boolean-looking
strings are excluded as well because pandas column dtype inference (not
modelled here) would convert them on re-reading.  The numeric exclusion
is deliberately a SUPERSET of what the pandas numeric parser can accept:
every string pandas can convert to a number is built from sign, digit,
decimal-point, exponent-letter and space characters, or is an
infinity/nan word, so excluding every string drawn from those character
sets (rather than only the exactly-convertible ones) guarantees that no
cell admitted by the hypothesis is dtype-converted by the program, at
the harmless price of excluding some unconvertible strings too. -/

/-- One horizontal interval of the Gantt chart. -/
structure GanttBar where
  task : Cell
  start : Option Date
  finish : Option Date
  phase : Cell
  label : Cell
deriving DecidableEq, Repr

/-- The produced Gantt chart description. -/
structure GanttFigure where
  bars : List GanttBar
  yAxisReversed : Bool
  title : String
deriving DecidableEq, Repr

/-- The interval px.timeline derives from one schedule row. -/
def barOfRow (r : Row) : GanttBar :=
  ⟨r.task, r.start, r.finish, r.phase, r.progress⟩

/-- Model of create_figure. -/
def create_figure (t : ScheduleTable) : GanttFigure :=
  ⟨t.map barOfRow, true, "Dissertation Gantt Chart"⟩

/-! Edit/persist cycle: the update_chart callback (src/app.py lines
251-269).  The editable grid hands back rows of strings; the callback
rebuilds a DataFrame, coerces the two date columns with pd.to_datetime,
writes the CSV and rebuilds the chart from the updated table; on any
exception it returns the chart built from the module-level df (the table
loaded at startup, which the callback never reassigns) together with an
error message, leaving the file untouched. -/

/-- One row of the editable grid snapshot (all cells arrive as text). -/
structure GridRow where
  task : String
  phase : String
  start : String
  finish : String
  progress : String
  notes : String
deriving DecidableEq, Repr

/-- Coercion of one grid row: pd.DataFrame(data) keeps the strings, then
pd.to_datetime must succeed on both date cells. -/
def coerceGridRow (g : GridRow) : Option Row :=
  match parseDate g.start, parseDate g.finish with
  | some s, some f =>
    some ⟨Cell.vStr g.task, Cell.vStr g.phase, some s, some f,
          Cell.vStr g.progress, Cell.vStr g.notes⟩
  | _, _ => none

/-- Coercion of the whole grid snapshot; pd.to_datetime raises if any cell
of either date column fails, so one bad cell fails the whole snapshot. -/
def coerceGrid : List GridRow → Option ScheduleTable
  | [] => some []
  | g :: gs =>
    match coerceGridRow g, coerceGrid gs with
    | some r, some rs => some (r :: rs)
    | _, _ => none

/-- Status message of a successful update. -/
def successMsg : String := "Chart updated and saved."

/-- Status message of a failed update (the source interpolates the Python
exception text after this prefix; the exact text is immaterial). -/
def errUpdateMsg : String := "Error updating chart: date coercion failed"

/-- Model of the update_chart callback.  Arguments: df is the module-level
table loaded at startup, fs the persisted gantt_data.csv (none when the
file does not exist), n_clicks and data the callback inputs.  Returns the
figure, the status message, and the new persisted file state. -/
def update_chart (df : ScheduleTable) (fs : Option CsvFile) (n_clicks : Nat)
    (data : Option (List GridRow)) : GanttFigure × String × Option CsvFile :=
  match data, n_clicks with
  | none, _ => (create_figure df, "", fs)
  | some [], _ => (create_figure df, "", fs)
  | some (_ :: _), 0 => (create_figure df, "", fs)
  | some (g :: gs), _ + 1 =>
    match coerceGrid (g :: gs) with
    | some t => (create_figure t, successMsg, some (saveTable t))
    | none => (create_figure df, errUpdateMsg, fs)

/-! Export aggregator and stacked-bar builder:
create_spirit_glass_chart_from_csv (src/app.py lines 94-143).

Pipeline, in source order: read eu_exports.csv; strip the characters of
the regex class [¬£,] from the value column and convert it to float
(raising if any residue is non-numeric); filter products matching the
alternation Whiskies|Gin|Vodka|Liqueurs|Ethyl alcohol case-insensitively
as a substring; sort_values descending by the cleaned column; then loop
over itertuples() building one bar per row with base equal to the running
cumulative and a share computed as export_value / total.

Two behaviours of the source need faithful modelling:

1. pandas sort_values(ascending=False) goes through
   pandas.core.sorting.nargsort, which for a descending sort first
   reverses both the values and their positional indices, argsorts the
   reversed values ascending, and finally reverses the resulting indexer
   again.  numpy argsort with the default kind is an insertion sort
   (stable) for the small arrays involved here, and the double reversal
   around a stable ascending kernel preserves the original relative
   order of equal keys: the composite is a stable descending sort.
   sort_values_desc below is that composite - reverse the rows, sort
   them ascending with a stable insertion sort, reverse the result - and
   sort_values_desc_eq_stable proves it equal to a stable descending
   insertion sort.

2. The loop reads the value with getattr(row, "EU Export (¬£)", 0).
   itertuples() builds namedtuples with rename=True, and the column name
   "EU Export (¬£)" is not a valid Python identifier (it contains spaces
   and parentheses), so it is renamed to the positional name "_2".  The
   getattr therefore never finds the attribute and always returns the
   default 0.  This is modelled below by reproducing the namedtuple
   renaming rule and the defaulted attribute lookup. -/

/-- One raw row of eu_exports.csv. -/
structure ExportRow where
  product : String
  value : String
  year : Int
deriving DecidableEq, Repr

/-- The regex replace of the character class [¬£,] with the empty string
(the source file stores the pound sign in mojibake form "¬£"). -/
def stripCurrency (s : String) : String :=
  String.mk (s.data.filter (fun c => !((c == '¬') || (c == '£') || (c == ','))))

/-- One row after the value column has been cleaned and parsed. -/
structure CleanRow where
  product : String
  value : ℚ
  year : Int
deriving DecidableEq, Repr

/-- Model of the astype(float) column conversion (applied to every row,
before filtering, exactly as in the source). -/
def cleanRows : List ExportRow → Option (List CleanRow)
  | [] => some []
  | r :: rs =>
    match stringToRat? (stripCurrency r.value), cleanRows rs with
    | some q, some cs => some (⟨r.product, q, r.year⟩ :: cs)
    | _, _ => none

/-- Substring test (pat occurs contiguously in s). -/
def leadMatch : List Char → List Char → Bool
  | [], _ => true
  | _ :: _, [] => false
  | p :: ps, c :: cs => (p == c) && leadMatch ps cs

/-- Whether pat occurs as a contiguous substring of s. -/
def subMatch (pat : List Char) : List Char → Bool
  | [] => pat.isEmpty
  | c :: tail => leadMatch pat (c :: tail) || subMatch pat tail

/-- The fixed category allow-list of the str.contains alternation. -/
def spiritPatterns : List String :=
  ["Whiskies", "Gin", "Vodka", "Liqueurs", "Ethyl alcohol"]

/-- ASCII lowercasing of a character list (the case folding performed by
the case=False regex match). -/
def lowerChars (cs : List Char) : List Char := cs.map Char.toLower

/-- Case-insensitive substring match of any allow-list alternative. -/
def productMatches (p : String) : Bool :=
  spiritPatterns.any (fun pat => subMatch (lowerChars pat.data) (lowerChars p.data))

/-- Ascending comparison on the cleaned value column. -/
def valueLe (a b : CleanRow) : Prop := a.value ≤ b.value

instance valueLe.decRel : DecidableRel valueLe :=
  fun a b => inferInstanceAs (Decidable (a.value ≤ b.value))

instance valueLe.total : IsTotal CleanRow valueLe :=
  ⟨fun a b => le_total a.value b.value⟩

instance valueLe.trans : IsTrans CleanRow valueLe :=
  ⟨fun _ _ _ h1 h2 => le_trans h1 h2⟩

/-- Descending comparison on the cleaned value column (the relation of the
stable descending reference sort). -/
def valueGe (a b : CleanRow) : Prop := b.value ≤ a.value

instance valueGe.decRel : DecidableRel valueGe :=
  fun a b => inferInstanceAs (Decidable (b.value ≤ a.value))

/-- Model of sort_values(by=value column, ascending=False): nargsort
reverses the rows, argsorts them ascending with a stable kernel, and
reverses the result (see the section comment). -/
def sort_values_desc (l : List CleanRow) : List CleanRow :=
  (List.insertionSort valueLe l.reverse).reverse

/-- ASCII test for a character allowed to start a Python identifier. -/
def isPyIdentStart (c : Char) : Bool := c.isAlpha || (c == '_')

/-- ASCII test for a character allowed inside a Python identifier. -/
def isPyIdentChar (c : Char) : Bool := c.isAlphanum || (c == '_')

/-- Whether a string is a valid Python identifier (ASCII approximation;
keyword collisions are not modelled, none arise here). -/
def isValidPyIdent (s : String) : Bool :=
  match s.data with
  | [] => false
  | c :: cs => isPyIdentStart c && cs.all isPyIdentChar

/-- collections.namedtuple field renaming with rename=True: an invalid
field name at position i becomes the positional name underscore-i. -/
def renameFields : Nat → List String → List String
  | _, [] => []
  | i, n :: ns =>
    (if isValidPyIdent n then n else String.mk ('_' :: natToChars i)) :: renameFields (i + 1) ns

/-- The attribute names of the namedtuples yielded by
df_exports.itertuples(): the Index plus the renamed column names. -/
def exportFieldNames : List String :=
  renameFields 0 ["Index", "Product", "EU Export (¬£)", "Year"]

/-- Model of getattr(row, "EU Export (¬£)", 0): the row namedtuple exposes
the value only under the renamed attribute, so the lookup falls back to
the default 0 (see the section comment). -/
def exportValueAttr (r : CleanRow) : ℚ :=
  if "EU Export (¬£)" ∈ exportFieldNames then r.value else 0

/-- The fixed colour palette, cycled by index modulo its size. -/
def spiritColors : List String :=
  ["#b5651d", "#f4d03f", "#d98880", "#5dade2", "#bb8fce", "#85c1e9"]

/-- One stacked-bar segment: go.Bar with x the segment length, base the
cumulative offset, and the share interpolated into the hovertemplate. -/
structure SpiritBar where
  product : String
  x : ℚ
  base : ℚ
  color : String
  share : ℚ
deriving DecidableEq, Repr

/-- The produced stacked-bar chart description; isError marks the
explicitly error-labelled empty figure of the except branch. -/
structure SpiritFigure where
  bars : List SpiritBar
  isError : Bool
deriving DecidableEq, Repr

/-- The bar-building loop (lines 114-125): per row, x is the getattr
result, base the running cumulative, colour cycles through the palette,
and the share is export_value / total. -/
def buildSpiritBars (total : ℚ) : List CleanRow → Nat → ℚ → List SpiritBar
  | [], _, _ => []
  | r :: rs, i, cum =>
    ⟨r.product, exportValueAttr r, cum,
     spiritColors.getD (i % spiritColors.length) "", exportValueAttr r / total⟩
      :: buildSpiritBars total rs (i + 1) (cum + exportValueAttr r)

/-- Model of create_spirit_glass_chart_from_csv.  The input is the parsed
export file (none when reading raises).  Any exception inside the try
block - a missing file, a value that astype(float) rejects, or the
ZeroDivisionError raised by the share computation when the loop runs with
total equal to 0 - yields the error-labelled empty figure. -/
def create_spirit_glass_chart_from_csv (file : Option (List ExportRow)) : SpiritFigure :=
  match file with
  | none => ⟨[], true⟩
  | some rows =>
    match cleanRows rows with
    | none => ⟨[], true⟩
    | some cleaned =>
      let filtered := cleaned.filter (fun r => productMatches r.product)
      let sorted := sort_values_desc filtered
      let total := (sorted.map (fun r => r.value)).sum
      if (!sorted.isEmpty) && (total == 0) then ⟨[], true⟩
      else ⟨buildSpiritBars total sorted 0 0, false⟩

/-- The sum of the filtered, parsed values (the quantity the claims call
the total; the source computes it as spirit_df[value column].sum()). -/
def spiritFilteredValuesSum (rows : List ExportRow) : Option ℚ :=
  (cleanRows rows).map
    (fun cs => ((cs.filter (fun r => productMatches r.product)).map (fun r => r.value)).sum)

/-- The final value of the cumulative loop variable: every iteration adds
exactly the x of the bar it emits, so the final cumulative equals the sum
of the emitted x values. -/
def spiritFinalCumulative (file : Option (List ExportRow)) : ℚ :=
  (((create_spirit_glass_chart_from_csv file).bars).map (fun b => b.x)).sum

/-! Document passthrough: save_file (lines 278-289), get_file_links
(lines 168-182) and serve_file (lines 292-298).  The docs directory is
modelled as an association list from filename to bytes; base64 decoding
of the upload payload is done by an external library and is out of scope,
so save_file receives the decoded bytes. -/

/-- The docs directory: filenames mapped to file contents. -/
abbrev DocStore := List (String × List Nat)

/-- Writing the decoded bytes to docs/name, overwriting any existing file
of the same name. -/
def save_file (d : DocStore) (name : String) (bytes : List Nat) : DocStore :=
  (d.filter (fun p => !(p.1 == name))) ++ [(name, bytes)]

/-- Reading back the raw bytes of a stored file (none models the 404
branch). -/
def serve_file : DocStore → String → Option (List Nat)
  | [], _ => none
  | (k, v) :: rest, n => if k = n then some v else serve_file rest n

/-- Whether a filename is hidden (starts with a dot). -/
def startsWithDot (n : String) : Bool :=
  match n.data with
  | [] => false
  | c :: _ => c == '.'

/-- The listing: sorted(os.listdir(DOCS_FOLDER)) with hidden files
(names starting with a dot) skipped. -/
def get_file_links (d : DocStore) : List String :=
  (List.insertionSort (fun a b : String => a ≤ b) (d.map Prod.fst)).filter
    (fun n => !(startsWithDot n))

/-! Helper predicates and lemmas used by the claim theorems. -/

/- Batteries marks the rational arithmetic operations irreducible, which
blocks evaluation of concrete claim instances by the decide tactic; make
them semireducible again for this development. -/
attribute [local semireducible] Rat.add Rat.mul Rat.inv Rat.sub

deriving instance DecidableEq for Except

theorem serve_file_append_of_no_key (d : DocStore) (n : String) (b : List Nat)
    (h : ∀ p ∈ d, p.1 ≠ n) : serve_file (d ++ [(n, b)]) n = some b := by
  induction d with
  | nil => simp [serve_file]
  | cons p rest ih =>
    obtain ⟨k, v⟩ := p
    rw [List.cons_append, serve_file]
    have hk : k ≠ n := h (k, v) (by simp)
    rw [if_neg hk]
    exact ih (fun q hq => h q (by simp [hq]))

theorem filter_ne_key (d : DocStore) (n : String) :
    ∀ p ∈ d.filter (fun p => !(p.1 == n)), p.1 ≠ n := by
  intro p hp
  rw [List.mem_filter] at hp
  have h2 := hp.2
  simpa using h2

theorem serve_file_save_file (d : DocStore) (n : String) (b : List Nat) :
    serve_file (save_file d n b) n = some b := by
  unfold save_file
  exact serve_file_append_of_no_key _ n b (filter_ne_key d n)

/-- A stable sort of an all-tied list is the identity. -/
theorem insertionSort_of_all_tied (l : List CleanRow)
    (h : ∀ a ∈ l, ∀ b ∈ l, a.value = b.value) : List.insertionSort valueLe l = l := by
  induction l with
  | nil => rfl
  | cons x xs ih =>
    have hxs : ∀ a ∈ xs, ∀ b ∈ xs, a.value = b.value :=
      fun a ha b hb => h a (by simp [ha]) b (by simp [hb])
    rw [List.insertionSort, ih hxs]
    cases xs with
    | nil => rfl
    | cons y ys =>
      rw [List.orderedInsert]
      have hxy : valueLe x y := by
        have := h x (by simp) y (by simp)
        unfold valueLe
        rw [this]
      rw [if_pos hxy]

/-! Lemmas showing that sort_values_desc (reverse, stable ascending sort,
reverse - the nargsort composite) equals a stable DESCENDING insertion
sort, which is the formal content of sorting descending with ties kept
in original order. -/

/-- Insertion of x into an ascending list at the last admissible place:
before the first strictly greater element, hence after every element
tied with x.  Appending x at the end of the input of a stable ascending
sort inserts it exactly here. -/
def orderedInsertLast (x : CleanRow) : List CleanRow → List CleanRow
  | [] => [x]
  | b :: bs => if x.value < b.value then x :: b :: bs else b :: orderedInsertLast x bs

theorem orderedInsert_orderedInsertLast (a x : CleanRow) (s : List CleanRow) :
    List.orderedInsert valueLe a (orderedInsertLast x s)
      = orderedInsertLast x (List.orderedInsert valueLe a s) := by
  induction s with
  | nil =>
    by_cases hax : valueLe a x
    · have h2 : ¬ (x.value < a.value) := not_lt.mpr hax
      simp [orderedInsertLast, List.orderedInsert, hax, h2]
    · have h2 : x.value < a.value := not_le.mp hax
      simp [orderedInsertLast, List.orderedInsert, hax, h2]
  | cons b bs ih =>
    by_cases hxb : x.value < b.value
    · by_cases hab : valueLe a b
      · by_cases hax : valueLe a x
        · simp only [orderedInsertLast, if_pos hxb, List.orderedInsert,
            if_pos hax, if_pos hab, if_neg (not_lt.mpr hax)]
        · simp only [orderedInsertLast, if_pos hxb, List.orderedInsert,
            if_neg hax, if_pos hab, if_pos (not_le.mp hax)]
      · have hax : ¬ valueLe a x := by
          have hba : b.value < a.value := not_le.mp hab
          exact not_le.mpr (lt_trans hxb hba)
        simp only [orderedInsertLast, if_pos hxb, List.orderedInsert,
          if_neg hax, if_neg hab, if_pos hxb]
    · by_cases hab : valueLe a b
      · have hax : ¬ (x.value < a.value) := by
          have hbx : b.value ≤ x.value := not_lt.mp hxb
          exact not_lt.mpr (le_trans hab hbx)
        simp only [orderedInsertLast, if_neg hxb, List.orderedInsert,
          if_pos hab, if_neg hax, if_neg hxb]
      · simp only [orderedInsertLast, if_neg hxb, List.orderedInsert,
          if_neg hab, if_neg hxb, ih]

theorem insertionSort_append_last (t : List CleanRow) (x : CleanRow) :
    List.insertionSort valueLe (t ++ [x])
      = orderedInsertLast x (List.insertionSort valueLe t) := by
  induction t with
  | nil => rfl
  | cons a t2 ih =>
    rw [List.cons_append, List.insertionSort, ih, List.insertionSort,
        orderedInsert_orderedInsertLast]

theorem orderedInsert_ge_of_all_lt (x : CleanRow) (t : List CleanRow)
    (h : ∀ c ∈ t, x.value < c.value) :
    List.orderedInsert valueGe x t = t ++ [x] := by
  induction t with
  | nil => rfl
  | cons c t2 ih =>
    rw [List.orderedInsert]
    have hng : ¬ valueGe x c := not_le.mpr (h c (by simp))
    rw [if_neg hng, ih (fun d hd => h d (by simp [hd]))]
    rfl

theorem orderedInsert_ge_append (t : List CleanRow) (b x : CleanRow) :
    List.orderedInsert valueGe x (t ++ [b]) =
      if t.all (fun c => decide (x.value < c.value))
      then t ++ (if valueGe x b then [x, b] else [b, x])
      else List.orderedInsert valueGe x t ++ [b] := by
  induction t with
  | nil =>
    rw [List.nil_append, if_pos (by rfl), List.nil_append, List.orderedInsert]
    by_cases hxb : valueGe x b
    · rw [if_pos hxb, if_pos hxb]
    · rw [if_neg hxb, if_neg hxb]
      rfl
  | cons c t2 ih =>
    by_cases hxc : valueGe x c
    · have hnot : decide (x.value < c.value) = false := by
        simpa using not_lt.mpr hxc
      rw [List.cons_append, List.orderedInsert, if_pos hxc, List.all_cons, hnot]
      simp only [Bool.false_and, Bool.false_eq_true, if_false]
      rw [List.orderedInsert, if_pos hxc]
      rfl
    · have hlt : decide (x.value < c.value) = true := by
        simpa using not_le.mp hxc
      rw [List.cons_append, List.orderedInsert, if_neg hxc, ih, List.all_cons, hlt]
      simp only [Bool.true_and]
      by_cases hall : t2.all (fun c => decide (x.value < c.value)) = true
      · rw [if_pos hall, if_pos hall]
        rfl
      · rw [if_neg hall, if_neg hall]
        rw [List.orderedInsert, if_neg hxc]
        rfl

theorem orderedInsertLast_all_lt (x : CleanRow) (s : List CleanRow)
    (h : ∀ c ∈ s, x.value < c.value) : orderedInsertLast x s = x :: s := by
  cases s with
  | nil => rfl
  | cons b bs =>
    unfold orderedInsertLast
    rw [if_pos (h b (by simp))]

theorem reverse_orderedInsertLast (x : CleanRow) (s : List CleanRow)
    (hs : List.Sorted valueLe s) :
    (orderedInsertLast x s).reverse = List.orderedInsert valueGe x s.reverse := by
  induction s with
  | nil => rfl
  | cons b bs ih =>
    obtain ⟨hble, hbs⟩ := List.sorted_cons.mp hs
    by_cases hxb : x.value < b.value
    · rw [orderedInsertLast, if_pos hxb, List.reverse_cons, List.reverse_cons,
          orderedInsert_ge_append]
      have hall : (bs.reverse).all (fun c => decide (x.value < c.value)) = true := by
        rw [List.all_eq_true]
        intro c hc
        have hcm : c ∈ bs := by simpa using hc
        simpa using lt_of_lt_of_le hxb (hble c hcm)
      rw [if_pos hall, if_neg (show ¬ valueGe x b from not_le.mpr hxb)]
      simp
    · rw [orderedInsertLast, if_neg hxb, List.reverse_cons, ih hbs,
          List.reverse_cons, orderedInsert_ge_append]
      by_cases hall : (bs.reverse).all (fun c => decide (x.value < c.value)) = true
      · rw [if_pos hall, if_pos (show valueGe x b from not_lt.mp hxb)]
        have hOI : List.orderedInsert valueGe x bs.reverse = bs.reverse ++ [x] := by
          apply orderedInsert_ge_of_all_lt
          intro c hc
          rw [List.all_eq_true] at hall
          simpa using hall c hc
        rw [hOI]
        simp
      · rw [if_neg hall]

/-- The nargsort composite equals a stable descending insertion sort. -/
theorem sort_values_desc_eq_stable (l : List CleanRow) :
    sort_values_desc l = List.insertionSort valueGe l := by
  induction l with
  | nil => rfl
  | cons x xs ih =>
    unfold sort_values_desc at ih ⊢
    rw [List.reverse_cons, insertionSort_append_last,
        reverse_orderedInsertLast x _ (List.sorted_insertionSort valueLe xs.reverse),
        ih, List.insertionSort]

/-! The claim theorems. -/

/-- Claim C1, counterexample to the claim as stated: run a successful
confirm (saving a new one-row table) and then a failing confirm (bad
Start date).  The failing confirm returns the chart built from the
startup table, which differs from the chart built from the last
successfully saved table (recovered here by loading the file the first
confirm wrote).  The third conjunct records what the returned chart
actually is. -/
theorem update_chart_last_saved_counterexample :
    (update_chart
        [⟨Cell.vStr "Old", Cell.vStr "P", some ⟨2025, 1, 1⟩, some ⟨2025, 1, 31⟩, Cell.vStr "0%", Cell.vStr "n"⟩]
        ((update_chart
            [⟨Cell.vStr "Old", Cell.vStr "P", some ⟨2025, 1, 1⟩, some ⟨2025, 1, 31⟩, Cell.vStr "0%", Cell.vStr "n"⟩]
            none 1 (some [⟨"New", "P", "2025-02-01", "2025-02-10", "50%", "done"⟩])).2.2)
        2 (some [⟨"New", "P", "bad-date-x", "2025-02-10", "50%", "done"⟩])).1
      ≠ create_figure (startupLoad
          ((update_chart
              [⟨Cell.vStr "Old", Cell.vStr "P", some ⟨2025, 1, 1⟩, some ⟨2025, 1, 31⟩, Cell.vStr "0%", Cell.vStr "n"⟩]
              none 1 (some [⟨"New", "P", "2025-02-01", "2025-02-10", "50%", "done"⟩])).2.2)) ∧
    startupLoad
        ((update_chart
            [⟨Cell.vStr "Old", Cell.vStr "P", some ⟨2025, 1, 1⟩, some ⟨2025, 1, 31⟩, Cell.vStr "0%", Cell.vStr "n"⟩]
            none 1 (some [⟨"New", "P", "2025-02-01", "2025-02-10", "50%", "done"⟩])).2.2)
      = [⟨Cell.vStr "New", Cell.vStr "P", some ⟨2025, 2, 1⟩, some ⟨2025, 2, 10⟩, Cell.vStr "50%", Cell.vStr "done"⟩] ∧
    (update_chart
        [⟨Cell.vStr "Old", Cell.vStr "P", some ⟨2025, 1, 1⟩, some ⟨2025, 1, 31⟩, Cell.vStr "0%", Cell.vStr "n"⟩]
        ((update_chart
            [⟨Cell.vStr "Old", Cell.vStr "P", some ⟨2025, 1, 1⟩, some ⟨2025, 1, 31⟩, Cell.vStr "0%", Cell.vStr "n"⟩]
            none 1 (some [⟨"New", "P", "2025-02-01", "2025-02-10", "50%", "done"⟩])).2.2)
        2 (some [⟨"New", "P", "bad-date-x", "2025-02-10", "50%", "done"⟩])).1
      = create_figure
          [⟨Cell.vStr "Old", Cell.vStr "P", some ⟨2025, 1, 1⟩, some ⟨2025, 1, 31⟩, Cell.vStr "0%", Cell.vStr "n"⟩] := by
  decide

/-- Claim C1 (amended): on a confirm whose date coercion fails, the
persisted file is left unchanged, the returned chart is rebuilt from the
table loaded at startup (held in the module-level df, which successful
saves never refresh), and a nonempty error message is reported; and for
every invocation the file is either left unchanged or replaced by the
save of the fully validated snapshot (no partial application). -/
theorem update_chart_failure_behaviour :
    (∀ (df : ScheduleTable) (fs : Option CsvFile) (n : Nat) (g : GridRow) (gs : List GridRow),
      n ≠ 0 → coerceGrid (g :: gs) = none →
      update_chart df fs n (some (g :: gs)) = (create_figure df, errUpdateMsg, fs) ∧
      errUpdateMsg ≠ "") ∧
    (∀ (df : ScheduleTable) (fs : Option CsvFile) (n : Nat) (data : Option (List GridRow)),
      (update_chart df fs n data).2.2 = fs ∨
      ∃ t : ScheduleTable, coerceGrid (data.getD []) = some t ∧
        (update_chart df fs n data).2.2 = some (saveTable t)) := by
  constructor
  · intro df fs n g gs hn hfail
    refine ⟨?_, by decide⟩
    cases n with
    | zero => exact absurd rfl hn
    | succ m =>
      simp only [update_chart, hfail]
  · intro df fs n data
    cases data with
    | none => left; rfl
    | some l =>
      cases l with
      | nil => left; rfl
      | cons g gs =>
        cases n with
        | zero => left; rfl
        | succ m =>
          cases hc : coerceGrid (g :: gs) with
          | none =>
            left
            simp only [update_chart, hc]
          | some t =>
            right
            refine ⟨t, by simpa using hc, ?_⟩
            simp only [update_chart, hc]

/-- Claim C1 witness: a concrete failing confirm against an empty file
state is discarded as the amended claim states. -/
theorem update_chart_failure_witness :
    update_chart fallbackTable none 1 (some [⟨"T1", "P", "not-a-date", "2025-06-30", "0%", "x"⟩]) =
      (create_figure fallbackTable, errUpdateMsg, none) ∧ errUpdateMsg ≠ "" :=
  update_chart_failure_behaviour.1 fallbackTable none 1
    ⟨"T1", "P", "not-a-date", "2025-06-30", "0%", "x"⟩ [] (by decide) (by decide)

/-- The five sample export rows the source itself creates
(create_sample_data, lines 66-72). -/
def euSampleRows : List ExportRow :=
  [⟨"Whiskies", "¬£1,250,000", 2024⟩, ⟨"Gin", "¬£890,000", 2024⟩,
   ⟨"Vodka", "¬£650,000", 2024⟩, ⟨"Liqueurs", "¬£420,000", 2024⟩,
   ⟨"Ethyl alcohol", "¬£320,000", 2024⟩]

/-- Claim C3, code bug: on the sample export rows, whose values all parse
(their filtered sum is 3530000), the final cumulative total of the loop
is 0, and every emitted share is 0 rather than value/total, because
getattr(row, "EU Export (¬£)", 0) never finds the renamed namedtuple
attribute and always yields its default 0.  The claim is the documented
intent; the code diverges from it. -/
theorem spirit_total_and_shares_bug :
    spiritFilteredValuesSum euSampleRows = some 3530000 ∧
    spiritFinalCumulative (some euSampleRows) = 0 ∧
    ((create_spirit_glass_chart_from_csv (some euSampleRows)).bars.map (fun b => b.share))
      = [0, 0, 0, 0, 0] ∧
    (3530000 : ℚ) ≠ 0 ∧
    (1250000 : ℚ) / 3530000 ≠ 0 := by
  decide

/-- Claim C4, code bug: on three allow-listed rows the emitted cumulative
intervals are all [0, 0) (trivially contiguous and non-decreasing), so
the final interval end is 0, not the 2790000 sum of the included values
- again the consequence of the defaulted getattr. -/
theorem spirit_intervals_bug :
    ((create_spirit_glass_chart_from_csv (some
        [⟨"Vodka", "¬£650,000", 2024⟩, ⟨"Gin", "¬£890,000", 2024⟩, ⟨"Whiskies", "¬£1,250,000", 2024⟩])).bars.map
      (fun b => (b.base, b.base + b.x))) = [(0, 0), (0, 0), (0, 0)] ∧
    spiritFilteredValuesSum
        [⟨"Vodka", "¬£650,000", 2024⟩, ⟨"Gin", "¬£890,000", 2024⟩, ⟨"Whiskies", "¬£1,250,000", 2024⟩]
      = some 2790000 ∧
    ((0 : ℚ) ≠ 2790000) := by
  decide

/-- Claim C5, code bug: on the two rows of the claim the output order is
indeed Whiskies then Gin (the sort uses the cleaned column and works),
but the emitted intervals are [0, 0) and [0, 0), not [0, 1250000) and
[1250000, 2140000), because the loop reads every value as the getattr
default 0. -/
theorem spirit_whiskies_gin_bug :
    ((create_spirit_glass_chart_from_csv (some
        [⟨"Whiskies", "£1,250,000", 2024⟩, ⟨"Gin", "£890,000", 2024⟩])).bars.map (fun b => b.product))
      = ["Whiskies", "Gin"] ∧
    ((create_spirit_glass_chart_from_csv (some
        [⟨"Whiskies", "£1,250,000", 2024⟩, ⟨"Gin", "£890,000", 2024⟩])).bars.map
      (fun b => (b.base, b.base + b.x))) = [(0, 0), (0, 0)] ∧
    (([((0 : ℚ), (0 : ℚ)), (0, 0)] : List (ℚ × ℚ)) ≠ [(0, 1250000), (1250000, 2140000)]) := by
  decide

/-- Claim C6: the aggregator sorts the remaining rows in non-increasing
order of parsed value (the output is a sorted permutation of them), and
the sort is stable: nargsort pre-reverses values and indices, argsorts
ascending with a stable kernel (numpy falls back to a stable insertion
sort at these array sizes) and post-reverses the indexer, and that
composite equals the stable descending insertion sort, so rows with
equal values keep their original relative order - in particular an
all-tied list comes out unchanged. -/
theorem sort_values_desc_perm_sorted (l : List CleanRow) :
    (sort_values_desc l).Perm l ∧
    List.Sorted (fun a b : CleanRow => b.value ≤ a.value) (sort_values_desc l) ∧
    sort_values_desc l = List.insertionSort valueGe l ∧
    ((∀ a ∈ l, ∀ b ∈ l, a.value = b.value) → sort_values_desc l = l) := by
  refine ⟨?_, ?_, sort_values_desc_eq_stable l, ?_⟩
  · exact (List.reverse_perm _).trans ((List.perm_insertionSort _ _).trans (List.reverse_perm _))
  · unfold sort_values_desc
    exact List.pairwise_reverse.mpr (List.sorted_insertionSort valueLe l.reverse)
  · intro h
    unfold sort_values_desc
    have hrev : ∀ a ∈ l.reverse, ∀ b ∈ l.reverse, a.value = b.value := by
      intro a ha b hb
      exact h a (by simpa using ha) b (by simpa using hb)
    rw [insertionSort_of_all_tied l.reverse hrev, List.reverse_reverse]

/-- Claim C6 witness: the tie hypothesis discharged on a concrete
all-tied two-row list, which the descending sort leaves in original
order. -/
theorem sort_values_desc_perm_sorted_witness :
    sort_values_desc [⟨"Gin", 7, 2024⟩, ⟨"Rum", 7, 2024⟩]
      = [⟨"Gin", 7, 2024⟩, ⟨"Rum", 7, 2024⟩] :=
  (sort_values_desc_perm_sorted [⟨"Gin", 7, 2024⟩, ⟨"Rum", 7, 2024⟩]).2.2.2 (by decide)

/-- Claim C8: the Gantt builder turns the given single schedule row into
exactly one interval spanning 2025-06-17 to 2025-06-30, keyed by Task
"T1", coloured by Phase "P", labelled with the Progress text; and in
general the bars appear in input row order with the y axis reversed, so
the first row is at the top of the display. -/
theorem create_figure_single_row_and_order :
    create_figure
        [⟨Cell.vStr "T1", Cell.vStr "P", some ⟨2025, 6, 17⟩, some ⟨2025, 6, 30⟩, Cell.vStr "100%", Cell.vStr "done"⟩]
      = ⟨[⟨Cell.vStr "T1", some ⟨2025, 6, 17⟩, some ⟨2025, 6, 30⟩, Cell.vStr "P", Cell.vStr "100%"⟩],
         true, "Dissertation Gantt Chart"⟩ ∧
    ∀ t : ScheduleTable, (create_figure t).bars = t.map barOfRow ∧ (create_figure t).yAxisReversed = true :=
  ⟨rfl, fun _ => ⟨rfl, rfl⟩⟩

/-- Claim C9: after storing bytes under "notes.pdf", the listing is
lexicographically sorted and contains "notes.pdf", fetching "notes.pdf"
returns exactly the stored bytes, and storing under an existing name
overwrites the previous bytes. -/
theorem docstore_store_list_fetch :
    (∀ (d : DocStore) (b : List Nat),
      ("notes.pdf" ∈ get_file_links (save_file d ("notes.pdf") b)) ∧
      List.Sorted (fun a b : String => a ≤ b) (get_file_links (save_file d ("notes.pdf") b)) ∧
      serve_file (save_file d ("notes.pdf") b) ("notes.pdf") = some b) ∧
    (∀ (d : DocStore) (n : String) (b1 b2 : List Nat),
      serve_file (save_file (save_file d n b1) n b2) n = some b2) := by
  constructor
  · intro d b
    refine ⟨?_, ?_, serve_file_save_file d ("notes.pdf") b⟩
    · unfold get_file_links
      rw [List.mem_filter]
      constructor
      · have hmem : "notes.pdf" ∈ (save_file d ("notes.pdf") b).map Prod.fst := by
          unfold save_file
          rw [List.map_append]
          simp
        exact ((List.perm_insertionSort _ _).mem_iff).mpr hmem
      · decide
    · unfold get_file_links
      exact (List.sorted_insertionSort _ _).filter _
  · intro d n b1 b2
    exact serve_file_save_file _ n b2

/-- Claim C10: with a click count of 0, a missing grid snapshot, or an
empty grid snapshot, the callback writes nothing, returns the chart
built from the table loaded at startup, and reports the empty status
message. -/
theorem update_chart_noop_cases (df : ScheduleTable) (fs : Option CsvFile)
    (n : Nat) (data : Option (List GridRow)) :
    update_chart df fs 0 data = (create_figure df, "", fs) ∧
    update_chart df fs n none = (create_figure df, "", fs) ∧
    update_chart df fs n (some []) = (create_figure df, "", fs) := by
  refine ⟨?_, ?_, ?_⟩
  · cases data with
    | none => rfl
    | some l =>
      cases l with
      | nil => rfl
      | cons g gs => rfl
  · cases n with
    | zero => rfl
    | succ m => rfl
  · cases n with
    | zero => rfl
    | succ m => rfl

end GanttApp
